import Mathlib

/-!
Verification of the Nexcart storefront (src/app.py): shallow embedding of
the session-cart, catalog-query, checkout and admin-creation logic, with
theorems settling the specification's claims.

Conventions of the embedding:
* Python ints (product ids) are `Nat` (Flask's `<int:...>` converter is
  non-negative).
* Python floats used for prices are embedded as `ℚ`; the claims concern
  which items are selected and summed, not binary rounding.
* `request.form.get(...)` / `request.args.get(...)` results are
  `Option String` (`none` = field absent, mirroring Python `None`).
* Fallible handler paths (uncaught Python exceptions such as
  `ValueError` from `float(...)` or `IntegrityError` from committing a
  NULL into a NOT NULL column) are `Except String`.
-/

/-- `Product` model (src/app.py lines 39-45): id, name, price, optional
image filename, description, category. -/
structure Product where
  id : Nat
  name : String
  price : ℚ
  image : Option String
  description : String
  category : String
deriving Repr, DecidableEq

/-- `Order` model (src/app.py lines 54-59). `customer_name` and `address`
are `Option String` because the handler passes `request.form.get` results
straight in; the NOT NULL constraints (`nullable=False`) are enforced at
commit time by `commitInsertOrder`. -/
structure Order where
  customer_name : Option String
  address : Option String
  total_price : ℚ
  status : String
deriving Repr, DecidableEq

/-- `Product.query.get(i)`: primary-key lookup in the catalog. -/
def findById (catalog : List Product) (i : Nat) : Option Product :=
  catalog.find? (fun p => p.id == i)

-- --- CART SYSTEM ---

/-- `add_to_cart` (src/app.py lines 153-165): `cart_list.append(product_id)`.
Missing session key starts from `[]`. -/
def add_to_cart (cart : List Nat) (product_id : Nat) : List Nat :=
  cart ++ [product_id]

/-- Python `list.remove(x)`: delete the first element equal to `x`
(the source only calls it guarded by `x in list`, so the absent case
never raises there). -/
def pyListRemove : List Nat → Nat → List Nat
  | [], _ => []
  | x :: xs, i => if x = i then xs else x :: pyListRemove xs i

/-- `remove_from_cart` (src/app.py lines 183-191): if the id is present,
remove its first occurrence; otherwise leave the cart unchanged. -/
def remove_from_cart (cart : List Nat) (product_id : Nat) : List Nat :=
  if product_id ∈ cart then pyListRemove cart product_id else cart

/-- `inject_cart_count` (src/app.py lines 66-70): `len(cart)`, the number
of entries (duplicates included). -/
def cart_count (cart : List Nat) : Nat :=
  cart.length

/-- One visitor action on the session cart. -/
inductive CartOp where
  | add (id : Nat)
  | remove (id : Nat)
deriving Repr, DecidableEq

/-- Apply one cart operation as the corresponding route handler does. -/
def applyCartOp (cart : List Nat) : CartOp → List Nat
  | .add i => add_to_cart cart i
  | .remove i => remove_from_cart cart i

/-- Run a whole sequence of cart operations from a starting cart. -/
def applyCartOps (ops : List CartOp) (cart : List Nat) : List Nat :=
  ops.foldl applyCartOp cart

-- --- THEOREMS: C8, C9 ---

theorem pyListRemove_not_mem (cart : List Nat) (i : Nat) (h : i ∉ cart) :
    pyListRemove cart i = cart := by
  induction cart with
  | nil => rfl
  | cons x xs ih =>
      simp only [List.mem_cons, not_or] at h
      simp only [pyListRemove, if_neg (fun hxi : x = i => h.1 hxi.symm),
        ih h.2]

/-- C8: for every sequence of add/remove operations, `count()` equals the
number of entries currently in the cart sequence (duplicates counted),
and removing an absent id leaves the sequence unchanged. -/
theorem cart_count_and_remove_absent (ops : List CartOp) (cart : List Nat)
    (x : Nat) (h : x ∉ cart) :
    cart_count (applyCartOps ops []) = (applyCartOps ops []).length ∧
      remove_from_cart cart x = cart := by
  refine ⟨rfl, ?_⟩
  unfold remove_from_cart
  rw [if_neg h]

/-- Witness for C8 at a concrete operation sequence and an absent id. -/
theorem cart_count_and_remove_absent_witness :
    (7 : Nat) ∉ [1, 2, 2] ∧
      (cart_count (applyCartOps [.add 1, .add 2, .remove 1] []) =
          (applyCartOps [.add 1, .add 2, .remove 1] []).length ∧
        remove_from_cart [1, 2, 2] 7 = [1, 2, 2]) :=
  ⟨by decide, cart_count_and_remove_absent [.add 1, .add 2, .remove 1]
    [1, 2, 2] 7 (by decide)⟩

/-- C9: when the cart contains an id at least twice, `remove` deletes
exactly the first occurrence: writing the cart as `l1 ++ x :: l2` with no
occurrence of `x` in `l1`, the result is `l1 ++ l2`, every later
occurrence (inside `l2`) intact and order preserved. -/
theorem remove_first_occurrence (l1 l2 : List Nat) (x : Nat)
    (hx : x ∉ l1) (_hdup : 2 ≤ (l1 ++ x :: l2).count x) :
    remove_from_cart (l1 ++ x :: l2) x = l1 ++ l2 := by
  have hmem : x ∈ l1 ++ x :: l2 := by simp
  unfold remove_from_cart
  rw [if_pos hmem]
  clear _hdup hmem
  induction l1 with
  | nil => simp [pyListRemove]
  | cons a as ih =>
      simp only [List.mem_cons, not_or] at hx
      simp only [List.cons_append, pyListRemove,
        if_neg (fun hax : a = x => hx.1 hax.symm), List.append_eq, ih hx.2]

/-- Witness for C9 on the cart `[3, 5, 5]` with `x = 5` (two
occurrences): only the first `5` is removed. -/
theorem remove_first_occurrence_witness :
    ((5 : Nat) ∉ [3] ∧ 2 ≤ ([3] ++ 5 :: [5]).count 5) ∧
      remove_from_cart ([3] ++ 5 :: [5]) 5 = [3] ++ [5] :=
  ⟨⟨by decide, by decide⟩,
    remove_first_occurrence [3] [5] 5 (by decide) (by decide)⟩

-- --- CART VIEW AND CHECKOUT ---

/-- `view_cart` (src/app.py lines 167-181): walk the cart ids in order,
resolve each via `Product.query.get`; resolvable ids are appended to the
line-item list and their price added to the running total, unresolvable
ids are skipped. Returns (cart_items, total_price). -/
def view_cart (catalog : List Product) (cart_ids : List Nat) :
    List Product × ℚ :=
  cart_ids.foldl
    (fun acc p_id =>
      match findById catalog p_id with
      | some item => (acc.1 ++ [item], acc.2 + item.price)
      | none => acc)
    ([], 0)

/-- The checkout total (src/app.py line 200):
`sum([Product.query.get(i).price for i in cart_ids if Product.query.get(i)])`
— the prices of exactly the cart ids that resolve. -/
def checkout_total (catalog : List Product) (cart_ids : List Nat) : ℚ :=
  (cart_ids.filterMap (fun i => (findById catalog i).map Product.price)).sum

/-- The spec's reading of the total ("Checkout total always equals the sum
of current Catalog prices for all cart ids that still resolve; stale ids
contribute zero"): a term of zero for each unresolvable id. Stated from
the spec's words, to be compared with `checkout_total` from the source. -/
def spec_total (catalog : List Product) (cart_ids : List Nat) : ℚ :=
  (cart_ids.map
    (fun i =>
      match findById catalog i with
      | some p => p.price
      | none => 0)).sum

/-- `db.session.add(new_order); db.session.commit()`: inserting an `Order`
row. `customer_name` and `address` are NOT NULL columns
(src/app.py lines 56-57), so committing a `None` in either raises an
`IntegrityError` (modelled as `Except.error`). -/
def commitInsertOrder (orders : List Order) (o : Order) :
    Except String (List Order) :=
  match o.customer_name, o.address with
  | some _, some _ => .ok (orders ++ [o])
  | _, _ => .error "IntegrityError: NOT NULL constraint failed"

/-- HTTP method of a `/checkout` request. -/
inductive Method where
  | get
  | post
deriving Repr, DecidableEq

/-- The form body of a checkout POST: `request.form.get('name')` and
`request.form.get('address')` (absent field = `none`). -/
structure CheckoutForm where
  name : Option String
  address : Option String
deriving Repr, DecidableEq

/-- The mutable state a `/checkout` request touches: the catalog (read
only), the Order table and the session cart. -/
structure AppState where
  catalog : List Product
  orders : List Order
  cart : List Nat
deriving Repr, DecidableEq

/-- What the checkout handler returns to the visitor. -/
inductive CheckoutResponse where
  | redirectShop (warning : String)
  | renderCheckout (total : ℚ)
  | renderSuccess (name : Option String)
deriving Repr, DecidableEq

/-- `checkout` (src/app.py lines 193-218). Empty cart: flash a warning and
redirect to the shop, touching nothing. Otherwise recompute the total from
current catalog prices; GET renders the checkout page with that total;
POST builds an `Order` from the form fields and the recomputed total,
commits it, and only then clears the cart (`session.pop` runs after
`db.session.commit()`, so a failed commit leaves the cart intact). -/
def checkout (st : AppState) (m : Method) (form : CheckoutForm) :
    Except String (AppState × CheckoutResponse) :=
  let cart_ids := st.cart
  if cart_ids.isEmpty then
    .ok (st, .redirectShop "Your cart is empty.")
  else
    let total_price := checkout_total st.catalog cart_ids
    match m with
    | .get => .ok (st, .renderCheckout total_price)
    | .post =>
        let new_order : Order :=
          { customer_name := form.name, address := form.address,
            total_price := total_price, status := "Pending" }
        match commitInsertOrder st.orders new_order with
        | .error e => .error e
        | .ok orders2 =>
            .ok ({ st with orders := orders2, cart := [] },
              .renderSuccess form.name)

-- --- THEOREMS: C1, C10 ---

theorem view_cart_foldl_shift (catalog : List Product)
    (cart_ids : List Nat) (acc : List Product × ℚ) :
    cart_ids.foldl
      (fun acc p_id =>
        match findById catalog p_id with
        | some item => (acc.1 ++ [item], acc.2 + item.price)
        | none => acc)
      acc =
      (acc.1 ++ (cart_ids.filterMap (findById catalog)),
        acc.2 + ((cart_ids.filterMap (findById catalog)).map
          Product.price).sum) := by
  induction cart_ids generalizing acc with
  | nil => simp
  | cons i rest ih =>
      simp only [List.foldl_cons, List.filterMap_cons]
      cases h : findById catalog i with
      | none => simp [h, ih]
      | some p => simp [h, ih, add_assoc]

/-- C1: for every catalog and cart sequence, the checkout total equals the
sum in which each resolvable id contributes its current catalog price and
each unresolvable id contributes zero; the unresolvable ids are excluded
from the displayed line-item list (which keeps exactly the resolvable
entries); and a checkout GET never raises an error, dangling ids or not. -/
theorem checkout_total_skips_dangling (catalog : List Product)
    (cart_ids : List Nat) (st : AppState) (form : CheckoutForm) :
    checkout_total catalog cart_ids = spec_total catalog cart_ids ∧
      (view_cart catalog cart_ids).1 =
        cart_ids.filterMap (findById catalog) ∧
      ∃ r, checkout st .get form = .ok r := by
  refine ⟨?_, ?_, ?_⟩
  · unfold checkout_total spec_total
    induction cart_ids with
    | nil => rfl
    | cons i rest ih =>
        simp only [List.filterMap_cons, List.map_cons, List.sum_cons]
        cases h : findById catalog i with
        | none => simpa [h] using ih
        | some p => simp [h, ih]
  · unfold view_cart
    rw [view_cart_foldl_shift]
    simp
  · unfold checkout
    by_cases h : st.cart.isEmpty <;> simp [h]

/-- C10: the `/cart` view is internally consistent: its line items are
exactly the cart entries that resolve, in cart order with duplicates
repeated, and the displayed total is the sum of the prices of exactly
those line items. -/
theorem view_cart_consistent (catalog : List Product)
    (cart_ids : List Nat) :
    (view_cart catalog cart_ids).1 =
        cart_ids.filterMap (findById catalog) ∧
      (view_cart catalog cart_ids).2 =
        (((view_cart catalog cart_ids).1).map Product.price).sum := by
  unfold view_cart
  rw [view_cart_foldl_shift]
  simp

-- --- THEOREMS: C2, C3, C7 ---

/-- C2: for every non-empty cart, a POST to `/checkout` that succeeds
leaves the session cart empty and appends exactly one new Order whose
`total_price` is the total recomputed from current catalog prices at
submission time — the same value a checkout GET on the submitted state
would have displayed. -/
theorem checkout_post_success (st : AppState) (form : CheckoutForm)
    (st2 : AppState) (r : CheckoutResponse)
    (hne : st.cart ≠ [])
    (hok : checkout st .post form = .ok (st2, r)) :
    st2.cart = [] ∧
      (∃ o : Order,
        st2.orders = st.orders ++ [o] ∧
        o.total_price = checkout_total st.catalog st.cart) ∧
      checkout st .get form =
        .ok (st, .renderCheckout (checkout_total st.catalog st.cart)) := by
  have hemp : st.cart.isEmpty = false := by
    cases h : st.cart with
    | nil => exact absurd h hne
    | cons a l => rfl
  cases hn : form.name with
  | none => simp [checkout, hemp, commitInsertOrder, hn] at hok
  | some n =>
      cases ha : form.address with
      | none => simp [checkout, hemp, commitInsertOrder, hn, ha] at hok
      | some a =>
          simp only [checkout, hemp, Bool.false_eq_true, if_false,
            commitInsertOrder, hn, ha] at hok
          cases hok
          simp only [checkout, hemp, Bool.false_eq_true, if_false]
          exact ⟨trivial, ⟨_, rfl, rfl⟩, trivial⟩

/-- Witness for C2 on a one-product catalog and a one-entry cart. -/
theorem checkout_post_success_witness :
    (let p : Product :=
      { id := 1, name := "Desk Mat", price := 25, image := none,
        description := "", category := "Accessories" }
    let st : AppState := { catalog := [p], orders := [], cart := [1] }
    let form : CheckoutForm :=
      { name := some "Ada", address := some "1 Main St" }
    st.cart ≠ [] ∧
      ∃ st2 r, checkout st .post form = .ok (st2, r) ∧
        (st2.cart = [] ∧
          (∃ o : Order,
            st2.orders = st.orders ++ [o] ∧
            o.total_price = checkout_total st.catalog st.cart) ∧
          checkout st .get form =
            .ok (st, .renderCheckout (checkout_total st.catalog st.cart)))) := by
  refine ⟨by decide, _, _, rfl, ?_⟩
  exact checkout_post_success _ _ _ _ (by decide) rfl

/-- C3: a `/checkout` request (GET or POST) with an empty session cart
mutates nothing — it returns the state unchanged (same cart, same Order
table, same Product table) together with a redirect carrying the
user-visible warning, and creates no Order. -/
theorem checkout_empty_cart (st : AppState) (m : Method)
    (form : CheckoutForm) (h : st.cart = []) :
    checkout st m form = .ok (st, .redirectShop "Your cart is empty.") := by
  unfold checkout
  rw [h]
  rfl

/-- Witness for C3: empty cart, POST with a filled form. -/
theorem checkout_empty_cart_witness :
    (let st : AppState := { catalog := [], orders := [], cart := [] }
    st.cart = [] ∧
      checkout st .post { name := some "Ada", address := some "X" } =
        .ok (st, .redirectShop "Your cart is empty.")) :=
  ⟨rfl, checkout_empty_cart _ .post _ rfl⟩

/-- C7 (code behaviour at the failing input): a POST to `/checkout` with a
non-empty cart and a missing `name` (or `address`) field raises an
uncaught `IntegrityError` at `db.session.commit()` — the NOT NULL columns
reject the `None` — so the request dies as an unhandled exception rather
than terminating as a recoverable validation failure. -/
theorem checkout_missing_field_crashes :
    (let p : Product :=
      { id := 1, name := "Desk Mat", price := 25, image := none,
        description := "", category := "Accessories" }
    let st : AppState := { catalog := [p], orders := [], cart := [1] }
    checkout st .post { name := none, address := some "1 Main St" } =
        .error "IntegrityError: NOT NULL constraint failed" ∧
      checkout st .post { name := some "Ada", address := none } =
        .error "IntegrityError: NOT NULL constraint failed") :=
  ⟨rfl, rfl⟩

-- --- REGISTRATION ---

/-- The parts of the `User` row the registration logic decides
(src/app.py lines 27-31); the password hash is produced by the external
werkzeug collaborator and plays no role in the admin-flag logic, so it is
not modelled. -/
structure RegUser where
  username : String
  is_admin : Bool
deriving Repr, DecidableEq

/-- `register` POST (src/app.py lines 73-94): reject a duplicate username
(flash, no state change); otherwise append a new user whose `is_admin`
is set exactly when `User.query.count() == 0` held before the insert. -/
def register (users : List RegUser) (username : String) : List RegUser :=
  if users.any (fun u => u.username == username) then
    users
  else
    users ++ [{ username := username, is_admin := users.length == 0 }]

/-- Run a sequence of registration requests from a starting table. -/
def registerAll (usernames : List String) (users : List RegUser) :
    List RegUser :=
  usernames.foldl register users

/-- The C4 invariant: a user's `is_admin` flag is true exactly for the
user at position 0 of the table (the first ever registered). -/
def adminInvariant (users : List RegUser) : Prop :=
  ∀ i : Fin users.length, (users.get i).is_admin = decide (i.val = 0)

theorem register_preserves_adminInvariant (users : List RegUser)
    (username : String) (h : adminInvariant users) :
    adminInvariant (register users username) := by
  unfold register
  by_cases hdup : users.any (fun u => u.username == username)
  · rw [if_pos hdup]; exact h
  · rw [if_neg hdup]
    intro i
    rw [List.get_eq_getElem]
    rcases lt_or_ge i.val users.length with hlt | hge
    · rw [List.getElem_append_left hlt]
      have hprev := h ⟨i.val, hlt⟩
      rw [List.get_eq_getElem] at hprev
      exact hprev
    · have hi2 := i.2
      simp only [List.length_append, List.length_cons, List.length_nil] at hi2
      have hieq : i.val = users.length := by omega
      have hlast : (users ++
          [RegUser.mk username (users.length == 0)]).get ⟨i.val, i.2⟩ =
          RegUser.mk username (users.length == 0) := by
        rcases i with ⟨iv, hiv⟩
        simp only at hieq
        subst hieq
        simp
      rw [List.get_eq_getElem] at hlast
      rw [hlast]
      show (users.length == 0) = decide (i.val = 0)
      rw [hieq]
      cases users <;> simp

/-- C4: starting from an empty User table, after any sequence of
registration requests the first registered user (position 0) has
`is_admin = true` and every later user has `is_admin = false`: the
admin invariant holds in every reachable state. -/
theorem first_user_is_the_admin (usernames : List String)
    (i : Fin (registerAll usernames []).length) :
    ((registerAll usernames []).get i).is_admin = decide (i.val = 0) := by
  have base : adminInvariant ([] : List RegUser) := by
    intro j
    exact absurd j.2 (by simp)
  have : ∀ (us : List String) (start : List RegUser),
      adminInvariant start → adminInvariant (registerAll us start) := by
    intro us
    induction us with
    | nil => intro start h; exact h
    | cons u rest ih =>
        intro start h
        exact ih (register start u) (register_preserves_adminInvariant start u h)
  exact this usernames [] base i

/-- Witness for C4: registering alice, bob, alice (duplicate), carol
yields alice as sole admin. -/
theorem first_user_is_the_admin_witness :
    ((registerAll ["alice", "bob", "alice", "carol"] []).get
        ⟨0, by decide⟩).is_admin = decide ((0 : Nat) = 0) ∧
      ((registerAll ["alice", "bob", "alice", "carol"] []).get
        ⟨2, by decide⟩).is_admin = decide ((2 : Nat) = 0) :=
  ⟨first_user_is_the_admin ["alice", "bob", "alice", "carol"] ⟨0, by decide⟩,
    first_user_is_the_admin ["alice", "bob", "alice", "carol"] ⟨2, by decide⟩⟩

-- --- SHOP LISTING (SEARCH + CATEGORY FILTER) ---

/-- Does `hay` start with `pat`? (helper for substring containment). -/
def leadsWith : List Char → List Char → Bool
  | [], _ => true
  | _ :: _, [] => false
  | a :: as, b :: bs => a == b && leadsWith as bs

/-- Does `hay` contain `pat` as a contiguous sublist? -/
def hasSubList (pat : List Char) : List Char → Bool
  | [] => leadsWith pat []
  | c :: rest => leadsWith pat (c :: rest) || hasSubList pat rest

/-- SQLAlchemy `column.contains(text)` (LIKE percent-text-percent):
substring containment of `pat` in `hay`. -/
def strContains (hay pat : String) : Bool :=
  hasSubList pat.toList hay.toList

/-- `shop_page` (src/app.py lines 124-145): start from the full catalog;
if a non-empty `q` parameter is present (`if search_query:` — Python
truthiness makes `None` and the empty string both skip the branch),
keep the products whose name or description contains `q`; if a non-empty
`category` parameter is present, keep those whose category equals it. -/
def shop_page (catalog : List Product) (q category : Option String) :
    List Product :=
  let step1 :=
    match q with
    | none => catalog
    | some s =>
        if s == "" then catalog
        else
          catalog.filter
            (fun p => strContains p.name s || strContains p.description s)
  match category with
  | none => step1
  | some c =>
      if c == "" then step1
      else step1.filter (fun p => p.category == c)

/-- The 11 products inserted by `setup_database`
(src/app.py lines 264-300), with the auto-increment ids 1..11 that the
empty table assigns in insertion order. -/
def seedProducts : List Product :=
  [{ id := 1, name := "Mechanical Keycaps (Python Ed.)",
     price := 49.99, image := none,
     description := "Custom PBT keycaps in blue and yellow colors.",
     category := "Hardware" },
   { id := 2, name := "Ultrawide Monitor Stand",
     price := 120, image := none,
     description := "Aluminum stand for your dual-monitor coding setup.",
     category := "Hardware" },
   { id := 3, name := "Ergonomic Vertical Mouse",
     price := 35.5, image := none,
     description := "Save your wrist during long debugging sessions.",
     category := "Hardware" },
   { id := 4, name := "Flask Pro Template",
     price := 29, image := none,
     description := "Production-ready boilerplate with Auth, Admin, and Stripe.",
     category := "Software" },
   { id := 5, name := "API Access Key (Lifetime)",
     price := 99, image := none,
     description := "Unlimited requests to our machine learning backend.",
     category := "Software" },
   { id := 6, name := "Cloud Deployment Script",
     price := 15, image := none,
     description := "Automated bash scripts for AWS/DigitalOcean.",
     category := "Software" },
   { id := 7, name := "Developer Hoodie (Black)",
     price := 55, image := none,
     description := "Heavyweight cotton. \x27It works on my machine\x27 print.",
     category := "Merchandise" },
   { id := 8, name := "Vacuum Insulated Mug",
     price := 22, image := none,
     description := "Keeps your coffee hot for 6 hours while you code.",
     category := "Merchandise" },
   { id := 9, name := "Laptop Sticker Pack",
     price := 8, image := none,
     description := "High-quality vinyl stickers: Python, Docker, Linux.",
     category := "Merchandise" },
   { id := 10, name := "Blue Light Glasses",
     price := 45, image := none,
     description := "Protect your eyes from screen fatigue.",
     category := "Accessories" },
   { id := 11, name := "Desk Mat (900x400)",
     price := 25, image := none,
     description := "Smooth surface with code cheat sheets printed on it.",
     category := "Accessories" }]

/-- The insulated mug, seed product number 8. -/
def seedMug : Product :=
  { id := 8, name := "Vacuum Insulated Mug",
    price := 22, image := none,
    description := "Keeps your coffee hot for 6 hours while you code.",
    category := "Merchandise" }

-- --- THEOREM: C5 ---

/-- C5: supplying a text query and a category together yields the
intersection — the catalog filtered by the conjunction of the substring
predicate (on name or description) and the exact category predicate; on
the 11 seeded products, q = code with category = Merchandise returns
exactly the mug. -/
theorem shop_search_and_category_intersect :
    (∀ (catalog : List Product) (q c : String), q ≠ "" → c ≠ "" →
      shop_page catalog (some q) (some c) =
        catalog.filter
          (fun p =>
            (strContains p.name q || strContains p.description q) &&
              p.category == c)) ∧
      shop_page seedProducts (some "code") (some "Merchandise") =
        [seedMug] := by
  constructor
  · intro catalog q c hq hc
    have hq2 : (q == "") = false := by
      cases h : q == "" with
      | false => rfl
      | true => exact absurd (by simpa using h) hq
    have hc2 : (c == "") = false := by
      cases h : c == "" with
      | false => rfl
      | true => exact absurd (by simpa using h) hc
    simp only [shop_page, hq2, hc2, Bool.false_eq_true, if_false,
      List.filter_filter]
    exact List.filter_congr (fun p _ => by rw [Bool.and_comm])
  · rfl

/-- Witness for C5: the general intersection equation applied at the
seeded catalog with q = code and c = Merchandise. -/
theorem shop_search_and_category_intersect_witness :
    ("code" ≠ "" ∧ "Merchandise" ≠ "") ∧
      shop_page seedProducts (some "code") (some "Merchandise") =
        seedProducts.filter
          (fun p =>
            (strContains p.name "code" || strContains p.description "code") &&
              p.category == "Merchandise") :=
  ⟨⟨by decide, by decide⟩,
    shop_search_and_category_intersect.1 seedProducts "code" "Merchandise"
      (by decide) (by decide)⟩

-- --- ADMIN PRODUCT CREATION ---

/-- Numeric value of a digit string. -/
def digitsVal (ds : List Char) : Nat :=
  ds.foldl (fun a c => 10 * a + (c.toNat - 48)) 0

/-- Exponent part after the e of a float literal: optional sign then at
least one digit. -/
def parseExpPart : List Char → Option Int
  | [] => none
  | '+' :: r =>
      if !r.isEmpty && r.all Char.isDigit then some (digitsVal r) else none
  | '-' :: r =>
      if !r.isEmpty && r.all Char.isDigit then
        some (-(digitsVal r : Int))
      else none
  | r =>
      if r.all Char.isDigit then some (digitsVal r) else none

/-- Python's built-in `float(str)` on its numeric literal forms: optional
surrounding whitespace, optional sign, digits with an optional fractional
part (at least one digit overall), optional exponent. Returns `none`
where `float(...)` raises `ValueError`. (The special strings `inf` and
`nan` and digit-group underscores accepted by Python are not modelled;
no claim involves them.) -/
def pyFloat (s : String) : Option ℚ :=
  let cs := (s.toList.dropWhile Char.isWhitespace).reverse
  let cs := (cs.dropWhile Char.isWhitespace).reverse
  let (sign, rest) :=
    match cs with
    | '+' :: r => ((1 : ℚ), r)
    | '-' :: r => ((-1 : ℚ), r)
    | r => ((1 : ℚ), r)
  let intPart := rest.takeWhile Char.isDigit
  let rest2 := rest.drop intPart.length
  let (fracPart, rest3) :=
    match rest2 with
    | '.' :: r3 => (r3.takeWhile Char.isDigit, r3.drop (r3.takeWhile Char.isDigit).length)
    | r => (([] : List Char), r)
  if intPart.isEmpty && fracPart.isEmpty then
    none
  else
    let mantissa : ℚ :=
      (digitsVal intPart : ℚ) +
        (digitsVal fracPart : ℚ) / (10 : ℚ) ^ fracPart.length
    match rest3 with
    | [] => some (sign * mantissa)
    | 'e' :: r5 =>
        match parseExpPart r5 with
        | some e => some (sign * mantissa * (10 : ℚ) ^ e)
        | none => none
    | 'E' :: r5 =>
        match parseExpPart r5 with
        | some e => some (sign * mantissa * (10 : ℚ) ^ e)
        | none => none
    | _ => none

/-- The POST branch of `admin_panel` (src/app.py lines 228-250) for an
admin user, without a file upload (`filename = None`): read the form
fields, convert the price with `float(p_price)` — which raises an
uncaught `TypeError` when the field is absent (`None`) and an uncaught
`ValueError` when the string does not parse — then insert the new
Product; the NOT NULL `name` column rejects an absent name at commit.
No branch flashes a validation message for a bad price or re-renders:
the exceptions propagate. -/
def admin_create (products : List Product) (nextId : Nat)
    (p_name p_price p_desc p_cat : Option String) :
    Except String (List Product) :=
  match p_price with
  | none => .error "TypeError: float() argument is None"
  | some s =>
      match pyFloat s with
      | none => .error "ValueError: could not convert string to float"
      | some v =>
          match p_name with
          | none => .error "IntegrityError: NOT NULL constraint failed"
          | some n =>
              .ok (products ++
                [{ id := nextId, name := n, price := v, image := none,
                   description := p_desc.getD "",
                   category := p_cat.getD "General" }])

-- --- THEOREM: C6 (code behaviour) ---

/-- C6 (code behaviour at the failing inputs): a price that does not
parse (`abc`, or an absent field) makes `float(p_price)` raise an
uncaught exception — the request dies instead of re-rendering with a
validation message — and a parseable negative price is accepted without
any non-negativity check, creating the product. -/
theorem admin_create_bad_price_crashes :
    admin_create [] 1 (some "Widget") (some "abc") (some "d") (some "General")
        = .error "ValueError: could not convert string to float" ∧
      admin_create [] 1 (some "Widget") none (some "d") (some "General")
        = .error "TypeError: float() argument is None" ∧
      admin_create [] 1 (some "Widget") (some "-5") (some "d") (some "General")
        = .ok [{ id := 1, name := "Widget", price := -5, image := none,
                 description := "d", category := "General" }] := by
  refine ⟨rfl, rfl, ?_⟩
  have harith :
      ((-1 : ℚ) * (((5 : ℕ) : ℚ) + ((0 : ℕ) : ℚ) / (10 : ℚ) ^ (0 : ℕ)))
        = -5 := by
    norm_num
  have hstep :
      admin_create [] 1 (some "Widget") (some "-5") (some "d") (some "General")
        = .ok [{ id := 1, name := "Widget",
                 price := (-1 : ℚ) *
                   (((5 : ℕ) : ℚ) + ((0 : ℕ) : ℚ) / (10 : ℚ) ^ (0 : ℕ)),
                 image := none, description := "d",
                 category := "General" }] := rfl
  rw [hstep, harith]
